import Mathlib

/-!
Verification development for the Spektor-Skope frontend core
(src/frontend/src/App.js): the detection/alert state machine, the EMF
confidence signal, the spirit-box frequency sweep, and the session
lifecycle, shallowly embedded over exact rationals.

Numeric model: JS numbers are embedded as rationals; `Math.round` is the
round-half-up `round` of Mathlib (both compute the floor of x + 1/2).
Ambient randomness (`Math.random()` draws) is threaded explicitly as
inputs: the jitter added to the EMF level, the sweep delta, and the
token-emission draw are parameters of the transition functions.
-/

namespace SpektorSkope

/-- A pose keypoint as delivered by the detector: `{name, x, y, score}`. -/
structure Keypoint where
  name : String
  x : ℚ
  y : ℚ
  score : ℚ
deriving Repr, DecidableEq

/-- A detected pose: an ordered list of keypoints. -/
structure Pose where
  keypoints : List Keypoint
deriving Repr, DecidableEq

/-- Keypoint filter `pose.keypoints.filter((kp) => kp.score > 0.3)`
(App.js line 192, also line 315). -/
def validKeypoints (p : Pose) : List Keypoint :=
  p.keypoints.filter (fun kp => 3/10 < kp.score)

/-- Mean valid-keypoint score
`validKeypoints.reduce((a, b) => a + b.score, 0) / validKeypoints.length`
(App.js line 197). Only evaluated under the `length > 5` guard, where the
denominator is nonzero. -/
def avgScore (p : Pose) : ℚ :=
  ((validKeypoints p).map Keypoint.score).sum / (validKeypoints p).length

/-- One pose observation handed to the detection loop: the pose itself, the
`Math.random() * 0.5` jitter drawn for it (line 198), and the `Date.now()`
timestamp read for it (line 202). -/
structure PoseObs where
  pose : Pose
  jitter : ℚ
  now : ℚ
deriving Repr, DecidableEq

/-- Session-level summary PUT to `/api/sessions/:id` on stop
(App.js lines 258-262): `{total_detections, max_emf_level}`. -/
structure SessionSummary where
  total_detections : Nat
  max_emf_level : ℚ
deriving Repr, DecidableEq

/-- The mutable state of the App component that the core logic touches:
`isRunning`, `detectionCount`, `emfLevel`, the `lastAlertTime` ref,
`spiritBoxActive`, `currentPoses`, `sessionId`, plus two event logs kept
for specification purposes (`alerts`: the firedAt instant of every alert
raised at line 203-209; `summaries`: every session summary emitted at
lines 258-262) and `frameScheduled`, recording whether a
`requestAnimationFrame` callback is currently scheduled (`animationRef`). -/
structure AppState where
  isRunning : Bool
  detectionCount : Nat
  emfLevel : ℚ
  lastAlertTime : ℚ
  spiritBoxActive : Bool
  currentPoses : List Pose
  sessionId : Option Nat
  frameScheduled : Bool
  alerts : List ℚ
  summaries : List SessionSummary
deriving Repr, DecidableEq

/-- The initial component state (App.js lines 25-39): counters zeroed,
`lastAlertTime` ref initialised to `0`, nothing running or scheduled. -/
def initState : AppState :=
  { isRunning := false
    detectionCount := 0
    emfLevel := 0
    lastAlertTime := 0
    spiritBoxActive := false
    currentPoses := []
    sessionId := none
    frameScheduled := false
    alerts := []
    summaries := [] }

/-- Body of `poses.forEach((pose) => ...)` in `detectPoses`
(App.js lines 191-211): if the pose has more than 5 keypoints with score
above 0.3, set `emfLevel := min(5, avgScore*5 + jitter)`; then, if
`now - lastAlertTime > 3000`, update the ref, bump `detectionCount` and
raise the alert (logged in `alerts`). A pose with 5 or fewer valid
keypoints does nothing. -/
def processPose (s : AppState) (o : PoseObs) : AppState :=
  if 5 < (validKeypoints o.pose).length then
    let s1 := { s with emfLevel := min 5 (avgScore o.pose * 5 + o.jitter) }
    if 3000 < o.now - s1.lastAlertTime then
      { s1 with
          lastAlertTime := o.now
          detectionCount := s1.detectionCount + 1
          alerts := s1.alerts ++ [o.now] }
    else s1
  else s

/-- The state-relevant body of `detectPoses` (App.js lines 161-221).
`refsOk` stands for the line-162 guard on `detectorRef`/`videoRef`/
`canvasRef`; `readyState` is `videoRef.current.readyState` (line 163):
when it is not 4 the function only re-schedules itself. Otherwise the
poses are stored in `currentPoses` (line 188); when the pose list is
nonempty every pose is processed in order (lines 190-211), and when it is
empty the EMF level decays: `max(0, prev - 0.1)` (line 214). Line 220
re-schedules the next animation frame unconditionally. Note that
`isRunning` is never consulted. -/
def detectPoses (refsOk : Bool) (readyState : Nat) (frame : List PoseObs)
    (s : AppState) : AppState :=
  if refsOk = false then s
  else if readyState ≠ 4 then { s with frameScheduled := true }
  else
    let s1 := { s with currentPoses := frame.map PoseObs.pose }
    let s2 :=
      if 0 < frame.length then frame.foldl processPose s1
      else { s1 with emfLevel := max 0 (s1.emfLevel - 1/10) }
    { s2 with frameScheduled := true }

/-- Run the detection loop over a list of frames, with the refs present
and the video ready (the steady state of a live session). -/
def runFrames (s : AppState) (fs : List (List PoseObs)) : AppState :=
  fs.foldl (fun t f => detectPoses true 4 f t) s

/-- The `emfLevel` trajectory along a run: the value before the first
frame and after each frame. -/
def emfTrace (s : AppState) : List (List PoseObs) → List ℚ
  | [] => [s.emfLevel]
  | f :: fs => s.emfLevel :: emfTrace (detectPoses true 4 f s) fs

/-- The maximum intensity attained over a run (what the spec means by
`maxIntensity` in the final session summary). -/
def maxEmfOverRun (s : AppState) (fs : List (List PoseObs)) : ℚ :=
  (emfTrace s fs).foldl max 0

/-- Session toggle `toggleSession` (App.js lines 247-288). When running: cancel the
animation frame, stop the camera, clear `isRunning` and
`spiritBoxActive`, and if a `sessionId` exists PUT the summary
`{total_detections := detectionCount, max_emf_level := emfLevel}`.
When idle: if the camera acquisition succeeds, set `isRunning`, zero
`detectionCount` and `emfLevel`, call `detectPoses()` (schedules the
loop), and POST a new session (`newSession = none` models a failed POST,
which leaves `sessionId` unchanged). -/
def toggleSession (cameraOk : Bool) (newSession : Option Nat)
    (s : AppState) : AppState :=
  if s.isRunning then
    { s with
        frameScheduled := false
        isRunning := false
        spiritBoxActive := false
        summaries :=
          match s.sessionId with
          | some _ =>
              s.summaries ++
                [{ total_detections := s.detectionCount
                   max_emf_level := s.emfLevel }]
          | none => s.summaries }
  else
    if cameraOk then
      { s with
          isRunning := true
          detectionCount := 0
          emfLevel := 0
          frameScheduled := true
          sessionId := newSession.orElse (fun _ => s.sessionId) }
    else s

/-- The spirit-box word bank `SPIRIT_WORDS` (App.js lines 11-16). -/
def SPIRIT_WORDS : List String :=
  ["hello", "help", "here", "yes", "no", "leave", "stay", "danger",
   "follow", "behind", "cold", "dark", "light", "death", "life",
   "lost", "find", "home", "gone", "watch", "listen", "quiet",
   "run", "stop", "wait", "soon", "never", "always", "fear"]

/-- One sweep step on the frequency (App.js lines 228-233):
`next = prev + delta` with `delta = (Math.random()*2 - 1) * 0.5`;
`if (next > 108) next = 88; if (next < 88) next = 108;` then
`Math.round(next * 10) / 10`. Mathlib `round` is floor of x + 1/2,
matching JS `Math.round` on these values. -/
def freqStep (prev delta : ℚ) : ℚ :=
  let next := prev + delta
  let next := if 108 < next then 88 else next
  let next := if next < 88 then 108 else next
  (round (next * 10) : ℤ) / 10

/-- The spirit-box sweep machinery set up by the `spiritBoxActive` effect
(App.js lines 224-244): `intervalScheduled` records the live
`setInterval` handle; `pendingClears` counts `setTimeout` word-clear
callbacks (line 239) that have been scheduled but have not yet fired;
`word` is `spiritWord` with the empty string modelled as `none`. -/
structure SweepSys where
  active : Bool
  intervalScheduled : Bool
  freq : ℚ
  word : Option String
  pendingClears : Nat
deriving Repr, DecidableEq

/-- One interval tick (App.js lines 227-241), enabled only while the
interval handle is live: step the frequency, and — when the independent
`Math.random() < 0.05` draw succeeds (`emit = some i` with `i` the word
index drawn) — set `spiritWord` and schedule a clear timeout. Returns
`none` when no tick can occur because the interval was cleared. -/
def sweepTick (s : SweepSys) (delta : ℚ)
    (emit : Option (Fin SPIRIT_WORDS.length)) : Option SweepSys :=
  if s.intervalScheduled then
    let s1 := { s with freq := freqStep s.freq delta }
    some (match emit with
      | some i =>
          { s1 with word := some (SPIRIT_WORDS.get i),
                    pendingClears := s1.pendingClears + 1 }
      | none => s1)
  else none

/-- Firing of one pending word-clear timeout
(`setTimeout(() => setSpiritWord(""), 1500)`, App.js line 239): enabled
whenever such a timeout is pending, regardless of whether the sweep is
still active. -/
def wordClearFire (s : SweepSys) : Option SweepSys :=
  if 0 < s.pendingClears then
    some { s with word := none, pendingClears := s.pendingClears - 1 }
  else none

/-- The effect cleanup on deactivation (App.js line 243):
`clearInterval(interval)`. It clears the interval handle and the active
flag; the pending word-clear timeouts are NOT touched by the cleanup. -/
def stopSweep (s : SweepSys) : SweepSys :=
  { s with active := false, intervalScheduled := false }

/-- JS division where a zero denominator yields NaN; `none` models the
NaN/undefined result. -/
def jsDiv (a b : ℚ) : Option ℚ :=
  if b = 0 then none else some (a / b)

/-- The detection record POSTed to `/api/detections` by `logDetection`
(App.js lines 319-325). `confidence` is `none` exactly when the JS
computation produced NaN (division by a zero keypoint count). -/
structure DetectionPayload where
  confidence : Option ℚ
  keypoints_count : Nat
  emf_level : ℚ
  spirit_box_frequency : Option ℚ
deriving Repr, DecidableEq

/-- Detection logger `logDetection` (App.js lines 311-333): early-returns (`none`) when
`currentPoses` is empty; otherwise takes the first pose, filters its
keypoints by `score > 0.3`, computes
`avgConfidence = sum of scores / count` — with NO guard against a zero
count — and posts the payload. -/
def logDetection (currentPoses : List Pose) (emfLevel : ℚ)
    (spiritBoxActive : Bool) (spiritBoxFreq : ℚ) : Option DetectionPayload :=
  match currentPoses with
  | [] => none
  | pose :: _ =>
      let vks := validKeypoints pose
      some
        { confidence := jsDiv ((vks.map Keypoint.score).sum) vks.length
          keypoints_count := vks.length
          emf_level := emfLevel
          spirit_box_frequency :=
            if spiritBoxActive then some spiritBoxFreq else none }

/-- A pose with `n` identical keypoints of the given score (concrete test
input builder). -/
def poseN (n : Nat) (q : ℚ) : Pose :=
  { keypoints := List.replicate n { name := "kp", x := 0, y := 0, score := q } }

/-- Separation predicate on an alert log: every earlier alert precedes
every later one by strictly more than the 3000 ms throttle interval. -/
def Separated (l : List ℚ) : Prop :=
  l.Pairwise (fun a b => a + 3000 < b)

/-- Throttle invariant tying the alert log to the `lastAlertTime` ref:
the log is separated and no logged alert is later than the ref. -/
def AlertInv (s : AppState) : Prop :=
  Separated s.alerts ∧ ∀ x ∈ s.alerts, x ≤ s.lastAlertTime

/-- A freshly started session: camera acquired, session id 1 POSTed. -/
def demoStart : AppState := toggleSession true (some 1) initState

/-- One frame with a single strongly detected pose (6 keypoints at score
0.9, zero jitter) at t = 10000 ms. -/
def demoFrameA : List PoseObs := [⟨poseN 6 (9/10), 0, 10000⟩]

/-- The demo session after one strong frame and one empty frame. -/
def demoRun : AppState := runFrames demoStart [demoFrameA, []]

/-- The demo session after `toggleSession` stops it. -/
def demoStopped : AppState := toggleSession true none demoRun

/-- A late qualifying frame arriving after the session has stopped. -/
def demoLateFrame : List PoseObs := [⟨poseN 6 (9/10), 0, 100000⟩]

/-- A qualifying frame with high confidence (mean score 0.9). -/
def demoHighFrame : List PoseObs := [⟨poseN 6 (9/10), 0, 10⟩]

/-- A qualifying frame with low confidence (mean score 0.4). -/
def demoLowFrame : List PoseObs := [⟨poseN 6 (2/5), 0, 20⟩]

/-- A frame containing one pose with only 5 valid keypoints: non-empty
pose list, but no pose passes the `length > 5` qualification. -/
def demoFivePoseFrame : List PoseObs := [⟨poseN 5 (1/2), 0, 0⟩]

/-- An app state with intensity 1.0, used to probe the decay law. -/
def demoEmfOne : AppState := { initState with emfLevel := 1 }

/-- An active sweep that just emitted a token: the word "hello" is
displayed and its 1500 ms clear timeout is pending. -/
def demoSweep : SweepSys :=
  { active := true, intervalScheduled := true, freq := 881/10,
    word := some "hello", pendingClears := 1 }

/-- A pose whose only keypoint scores 0.2: the pose list is non-empty,
yet zero keypoints pass the 0.3 filter. -/
def demoWeakPose : Pose :=
  { keypoints := [{ name := "nose", x := 0, y := 0, score := 1/5 }] }

lemma processPose_eq (s : AppState) (o : PoseObs) :
    processPose s o =
      if 5 < (validKeypoints o.pose).length then
        if 3000 < o.now - s.lastAlertTime then
          { s with
              emfLevel := min 5 (avgScore o.pose * 5 + o.jitter)
              lastAlertTime := o.now
              detectionCount := s.detectionCount + 1
              alerts := s.alerts ++ [o.now] }
        else { s with emfLevel := min 5 (avgScore o.pose * 5 + o.jitter) }
      else s := rfl

lemma processPose_isRunning_set (s : AppState) (o : PoseObs) (b : Bool) :
    processPose { s with isRunning := b } o =
      { processPose s o with isRunning := b } := by
  rw [processPose_eq, processPose_eq]
  dsimp only
  split_ifs <;> rfl

lemma alertInv_processPose {s : AppState} (o : PoseObs) (h : AlertInv s) :
    AlertInv (processPose s o) := by
  rw [processPose_eq]
  split_ifs with h1 h2
  · constructor
    · refine List.pairwise_append.mpr ⟨h.1, List.pairwise_singleton _ _, ?_⟩
      intro a ha b hb
      rcases List.mem_singleton.mp hb with rfl
      have := h.2 a ha
      linarith
    · intro x hx
      rcases List.mem_append.mp hx with hx | hx
      · have := h.2 x hx
        show x ≤ o.now
        linarith
      · rcases List.mem_singleton.mp hx with rfl
        exact le_refl _
  · exact h
  · exact h

lemma alertInv_foldl (l : List PoseObs) {s : AppState} (h : AlertInv s) :
    AlertInv (l.foldl processPose s) := by
  induction l generalizing s with
  | nil => exact h
  | cons o l ih => exact ih (alertInv_processPose o h)

lemma alertInv_detectPoses (refsOk : Bool) (rs : Nat) (f : List PoseObs)
    {s : AppState} (h : AlertInv s) : AlertInv (detectPoses refsOk rs f s) := by
  unfold detectPoses
  split_ifs with h1 h2 h3
  · exact h
  · exact h
  · exact alertInv_foldl f h
  · exact h

lemma alertInv_runFrames (fs : List (List PoseObs)) {s : AppState}
    (h : AlertInv s) : AlertInv (runFrames s fs) := by
  induction fs generalizing s with
  | nil => exact h
  | cons f fs ih => exact ih (alertInv_detectPoses true 4 f h)

lemma alertInv_initState : AlertInv initState :=
  ⟨List.Pairwise.nil, by intro x hx; simp [initState] at hx⟩

lemma validKeypoints_score_pos (p : Pose) :
    ∀ kp ∈ validKeypoints p, (0 : ℚ) ≤ kp.score := by
  intro kp hkp
  have hmem := List.of_mem_filter hkp
  have h3 : (3/10 : ℚ) < kp.score := by simpa using hmem
  linarith

lemma avgScore_nonneg (p : Pose) : 0 ≤ avgScore p := by
  unfold avgScore
  apply div_nonneg
  · apply List.sum_nonneg
    intro x hx
    rcases List.mem_map.mp hx with ⟨kp, hkp, rfl⟩
    exact validKeypoints_score_pos p kp hkp
  · exact_mod_cast Nat.zero_le _

lemma processPose_emf_bounds {s : AppState} (o : PoseObs)
    (hj : 0 ≤ o.jitter) (h0 : 0 ≤ s.emfLevel) (h5 : s.emfLevel ≤ 5) :
    0 ≤ (processPose s o).emfLevel ∧ (processPose s o).emfLevel ≤ 5 := by
  rw [processPose_eq]
  split_ifs with h1 h2
  · constructor
    · show (0 : ℚ) ≤ min 5 (avgScore o.pose * 5 + o.jitter)
      have := avgScore_nonneg o.pose
      apply le_min <;> nlinarith
    · exact min_le_left _ _
  · constructor
    · show (0 : ℚ) ≤ min 5 (avgScore o.pose * 5 + o.jitter)
      have := avgScore_nonneg o.pose
      apply le_min <;> nlinarith
    · exact min_le_left _ _
  · exact ⟨h0, h5⟩

lemma foldl_emf_bounds (l : List PoseObs) {s : AppState}
    (hj : ∀ o ∈ l, 0 ≤ o.jitter) (h0 : 0 ≤ s.emfLevel) (h5 : s.emfLevel ≤ 5) :
    0 ≤ (l.foldl processPose s).emfLevel ∧ (l.foldl processPose s).emfLevel ≤ 5 := by
  induction l generalizing s with
  | nil => exact ⟨h0, h5⟩
  | cons o l ih =>
      have hb := processPose_emf_bounds o (hj o (List.mem_cons_self _ _)) h0 h5
      exact ih (fun x hx => hj x (List.mem_cons_of_mem _ hx)) hb.1 hb.2

lemma detectPoses_emf_bounds (refsOk : Bool) (rs : Nat) (f : List PoseObs)
    {s : AppState} (hj : ∀ o ∈ f, 0 ≤ o.jitter)
    (h0 : 0 ≤ s.emfLevel) (h5 : s.emfLevel ≤ 5) :
    0 ≤ (detectPoses refsOk rs f s).emfLevel ∧
      (detectPoses refsOk rs f s).emfLevel ≤ 5 := by
  unfold detectPoses
  split_ifs with h1 h2 h3
  · exact ⟨h0, h5⟩
  · exact ⟨h0, h5⟩
  · exact foldl_emf_bounds f hj h0 h5
  · constructor
    · exact le_max_left _ _
    · show max 0 (s.emfLevel - 1/10) ≤ 5
      apply max_le <;> linarith

lemma emfTrace_bounds (fs : List (List PoseObs)) {s : AppState}
    (hj : ∀ f ∈ fs, ∀ o ∈ f, 0 ≤ o.jitter)
    (h0 : 0 ≤ s.emfLevel) (h5 : s.emfLevel ≤ 5) :
    ∀ x ∈ emfTrace s fs, 0 ≤ x ∧ x ≤ 5 := by
  induction fs generalizing s with
  | nil =>
      intro x hx
      rcases List.mem_singleton.mp hx with rfl
      exact ⟨h0, h5⟩
  | cons f fs ih =>
      intro x hx
      rcases List.mem_cons.mp hx with rfl | hx
      · exact ⟨h0, h5⟩
      · have hb := detectPoses_emf_bounds true 4 f (hj f (List.mem_cons_self _ _)) h0 h5
        exact ih (fun g hg => hj g (List.mem_cons_of_mem _ hg)) hb.1 hb.2 x hx

lemma foldl_isRunning_set (l : List PoseObs) (s : AppState) (b : Bool) :
    l.foldl processPose { s with isRunning := b } =
      { l.foldl processPose s with isRunning := b } := by
  induction l generalizing s with
  | nil => rfl
  | cons o l ih => rw [List.foldl_cons, List.foldl_cons, processPose_isRunning_set, ih]

lemma detectPoses_isRunning_set (refsOk : Bool) (rs : Nat) (f : List PoseObs)
    (s : AppState) (b : Bool) :
    detectPoses refsOk rs f { s with isRunning := b } =
      { detectPoses refsOk rs f s with isRunning := b } := by
  unfold detectPoses
  split_ifs with h1 h2 h3
  · rfl
  · rfl
  · show ({ (f.foldl processPose { s with isRunning := b, currentPoses := _ }) with frameScheduled := true } : AppState) = _
    rw [show ({ s with isRunning := b, currentPoses := f.map PoseObs.pose } : AppState) =
      { ({ s with currentPoses := f.map PoseObs.pose } : AppState) with isRunning := b } from rfl,
      foldl_isRunning_set]
  · rfl

lemma freqStep_mem (prev delta : ℚ) (h1 : 88 ≤ prev) (h2 : prev ≤ 108)
    (h3 : -(1/2) ≤ delta) (h4 : delta ≤ 1/2) :
    88 ≤ freqStep prev delta ∧ freqStep prev delta ≤ 108 := by
  have key : ∀ x : ℚ, 88 ≤ x → x ≤ 108 →
      88 ≤ ((round (x * 10) : ℤ) : ℚ) / 10 ∧ ((round (x * 10) : ℤ) : ℚ) / 10 ≤ 108 := by
    intro x hx1 hx2
    have hlow : (880 : ℤ) ≤ round (x * 10) := by
      rw [round_eq, Int.le_floor]; push_cast; linarith
    have hhigh : round (x * 10) ≤ (1080 : ℤ) := by
      have hfl : ⌊x * 10 + 1/2⌋ < (1081 : ℤ) := by
        rw [Int.floor_lt]; push_cast; linarith
      rw [round_eq]; omega
    have hlow2 : (880 : ℚ) ≤ ((round (x * 10) : ℤ) : ℚ) := by exact_mod_cast hlow
    have hhigh2 : ((round (x * 10) : ℤ) : ℚ) ≤ 1080 := by exact_mod_cast hhigh
    constructor <;> linarith
  simp only [freqStep]
  rcases le_or_lt (prev + delta) 108 with hle | hgt
  · rcases le_or_lt 88 (prev + delta) with hge | hlt
    · rw [if_neg (not_lt.mpr hle), if_neg (not_lt.mpr hge)]
      exact key _ hge hle
    · rw [if_neg (not_lt.mpr hle), if_pos hlt]
      exact key 108 (by norm_num) (by norm_num)
  · rw [if_pos hgt, if_neg (lt_irrefl (88 : ℚ))]
    exact key 88 (by norm_num) (by norm_num)

lemma processPose_not_qual {s : AppState} {o : PoseObs}
    (h : ¬ 5 < (validKeypoints o.pose).length) : processPose s o = s := by
  rw [processPose_eq, if_neg h]

lemma foldl_not_qual (l : List PoseObs) (s : AppState)
    (h : ∀ o ∈ l, ¬ 5 < (validKeypoints o.pose).length) :
    l.foldl processPose s = s := by
  induction l generalizing s with
  | nil => rfl
  | cons o l ih =>
      rw [List.foldl_cons, processPose_not_qual (h o (List.mem_cons_self _ _))]
      exact ih s fun x hx => h x (List.mem_cons_of_mem _ hx)

lemma detectPoses_empty_decay (s : AppState) :
    (detectPoses true 4 [] s).emfLevel = max 0 (s.emfLevel - 1/10) := rfl

lemma detectPoses_not_qual (s : AppState) (f : List PoseObs) (hne : f ≠ [])
    (h : ∀ o ∈ f, ¬ 5 < (validKeypoints o.pose).length) :
    (detectPoses true 4 f s).emfLevel = s.emfLevel := by
  unfold detectPoses
  rw [if_neg (by norm_num), if_neg (by norm_num)]
  have hlen : 0 < f.length := List.length_pos.mpr hne
  simp only [if_pos hlen]
  rw [foldl_not_qual f _ h]

/-- C1 (counterexample). The claim's firing condition uses
`now - lastFired >= minInterval`, but the code (App.js line 203) uses a
strict `>`: at the exact boundary — a qualifying pose arriving with
`now - lastAlertTime = 3000` — the claim demands an AlertEvent, yet the
code produces none (the alert log stays empty). -/
theorem alert_boundary_no_fire_at_exact_interval :
    5 < (validKeypoints (poseN 6 (9/10))).length ∧
    (3000 : ℚ) - initState.lastAlertTime ≥ 3000 ∧
    (processPose initState ⟨poseN 6 (9/10), 0, 3000⟩).alerts = initState.alerts := by
  refine ⟨?_, by norm_num [initState], ?_⟩
  · norm_num [validKeypoints, poseN, List.replicate, List.filter]
  · norm_num [processPose, initState, poseN, validKeypoints, avgScore,
      List.replicate, List.filter]

/-- C1 (amended). An AlertEvent is produced exactly when the pose is
qualifying AND `now - lastFired > minInterval` (strict, 3000 ms);
consequently, over any frame sequence processed from the initial state,
no two AlertEvents have `firedAt` timestamps less than `minInterval`
apart (their pairwise distance is at least 3000 ms). -/
theorem alert_fire_strict_and_separated :
    (∀ (s : AppState) (o : PoseObs),
        (processPose s o).alerts = s.alerts ++ [o.now] ↔
          5 < (validKeypoints o.pose).length ∧ 3000 < o.now - s.lastAlertTime) ∧
    (∀ fs : List (List PoseObs),
        ((runFrames initState fs).alerts).Pairwise fun a b => 3000 ≤ |b - a|) := by
  constructor
  · intro s o
    rw [processPose_eq]
    split_ifs with h1 h2
    · simp [h1, h2]
    · simp [h2]
    · simp [h1]
  · intro fs
    have h := alertInv_runFrames fs alertInv_initState
    refine h.1.imp ?_
    intro a b hab
    have hlt : 3000 < b - a := by linarith
    calc (3000 : ℚ) ≤ b - a := le_of_lt hlt
      _ ≤ |b - a| := le_abs_self _

/-- C2 (counterexample). After `toggleSession` stops the demo session
(state `demoStopped`, not running), feeding one more qualifying frame
through `detectPoses` still mutates the session: the EMF level changes
from 4.4 to 4.5 and the detection counter from 1 to 2 — the frame is not
silently dropped, because `detectPoses` never checks `isRunning`. -/
theorem frame_after_stop_mutates_session :
    demoStopped.isRunning = false ∧
    demoStopped.emfLevel = 22/5 ∧
    demoStopped.detectionCount = 1 ∧
    (detectPoses true 4 demoLateFrame demoStopped).emfLevel = 9/2 ∧
    (detectPoses true 4 demoLateFrame demoStopped).detectionCount = 2 := by
  norm_num [demoStopped, demoRun, demoStart, demoFrameA, demoLateFrame,
    toggleSession, runFrames, detectPoses, processPose, initState, poseN,
    validKeypoints, avgScore, List.replicate, List.filter, List.foldl]

/-- C2 (amended). Stopping the session cancels the scheduled animation
frame and clears the running flag, so the frame loop does not continue
on its own; but `detectPoses` itself performs no running check: its
effect is entirely independent of `isRunning`, so a frame fed to it
while not Running is processed exactly as while Running rather than
being dropped. -/
theorem stop_cancels_loop_and_detect_ignores_running :
    (∀ (c : Bool) (n : Option Nat) (s : AppState), s.isRunning = true →
        (toggleSession c n s).frameScheduled = false ∧
        (toggleSession c n s).isRunning = false) ∧
    (∀ (refsOk : Bool) (rs : Nat) (f : List PoseObs) (s : AppState) (b : Bool),
        detectPoses refsOk rs f { s with isRunning := b } =
          { detectPoses refsOk rs f s with isRunning := b }) := by
  constructor
  · intro c n s h
    simp [toggleSession, h]
  · exact fun refsOk rs f s b => detectPoses_isRunning_set refsOk rs f s b

/-- C2 (witness). The stop branch applied to the concrete running demo
session. -/
theorem stop_cancels_loop_and_detect_ignores_running_witness :
    (toggleSession true none demoStart).frameScheduled = false ∧
    (toggleSession true none demoStart).isRunning = false :=
  stop_cancels_loop_and_detect_ignores_running.1 true none demoStart
    (by norm_num [demoStart, toggleSession, initState])

/-- C3 (counterexample). There is no idempotent start guard: the public
operation is a toggle. From the idle initial state, the first call
starts the session (`isRunning = true`); the second call, arriving while
not idle, does not leave the state unchanged in Running — it stops the
session (`isRunning = false`). -/
theorem second_toggle_stops_session :
    demoStart.isRunning = true ∧
    (toggleSession true (some 2) demoStart).isRunning = false := by
  norm_num [demoStart, toggleSession, initState]

/-- C3 (amended). A second `toggleSession` call while the session is
running performs a stop, not a no-op: the state does not remain Running.
The counter reset lives only on the start path, so the second call does
not reset `detectionCount` (no double-reset, but also no unchanged
Running state). -/
theorem toggle_while_running_stops (c : Bool) (n : Option Nat)
    (s : AppState) (h : s.isRunning = true) :
    (toggleSession c n s).isRunning = false ∧
    (toggleSession c n s).detectionCount = s.detectionCount := by
  simp [toggleSession, h]

/-- C3 (witness). The second toggle applied to the concrete running demo
session. -/
theorem toggle_while_running_stops_witness :
    (toggleSession true (some 2) demoStart).isRunning = false ∧
    (toggleSession true (some 2) demoStart).detectionCount =
      demoStart.detectionCount :=
  toggle_while_running_stops true (some 2) demoStart
    (by norm_num [demoStart, toggleSession, initState])

/-- C4 (confirmed). The sweep step is a hard wrap followed by rounding
to one decimal: 107.9 + 0.3 overflows 108 and wraps to exactly 88.0
(not a reflect to 88.2); 88.1 - 0.3 underflows 88 and wraps to exactly
108.0; and for any previous frequency in [88, 108] and any tick delta in
[-0.5, 0.5], the resulting frequency stays in [88, 108]. -/
theorem freq_wrap_hard_and_bounded (prev delta : ℚ)
    (h1 : 88 ≤ prev) (h2 : prev ≤ 108)
    (h3 : -(1/2) ≤ delta) (h4 : delta ≤ 1/2) :
    freqStep (1079/10) (3/10) = 88 ∧
    freqStep (881/10) (-(3/10)) = 108 ∧
    88 ≤ freqStep prev delta ∧ freqStep prev delta ≤ 108 :=
  ⟨by norm_num [freqStep, round_eq], by norm_num [freqStep, round_eq],
   (freqStep_mem prev delta h1 h2 h3 h4).1,
   (freqStep_mem prev delta h1 h2 h3 h4).2⟩

/-- C4 (witness). The wrap equalities together with the range law at the
concrete point prev = 100, delta = 1/4. -/
theorem freq_wrap_hard_and_bounded_witness :
    freqStep (1079/10) (3/10) = 88 ∧
    freqStep (881/10) (-(3/10)) = 108 ∧
    88 ≤ freqStep 100 (1/4) ∧ freqStep 100 (1/4) ≤ 108 :=
  freq_wrap_hard_and_bounded 100 (1/4) (by norm_num) (by norm_num)
    (by norm_num) (by norm_num)

/-- C5 (counterexample). The sweep stop does NOT cancel the pending
token-clear: in the concrete active sweep `demoSweep` (word "hello"
displayed, one clear timeout pending), after the Active-to-Inactive
cleanup the clear timeout is still pending and firing it changes
`SweepState` — the displayed token is cleared after stop, contradicting
the claim that no further `SweepState` change can occur. -/
theorem pending_word_clear_survives_stop :
    (stopSweep demoSweep).word = some "hello" ∧
    (stopSweep demoSweep).pendingClears = 1 ∧
    (wordClearFire (stopSweep demoSweep)).map SweepSys.word = some none := by
  refine ⟨rfl, rfl, ?_⟩
  norm_num [wordClearFire, stopSweep, demoSweep]

/-- C5 (amended). The Active-to-Inactive cleanup cancels only the
scheduled fixed-period tick (`clearInterval`): after `stopSweep` no tick
can occur; but pending token-clear timeouts are left untouched, so a
delayed clearing of the last token can still occur after stop. -/
theorem stop_cancels_tick_not_word_clear (s : SweepSys) (d : ℚ)
    (e : Option (Fin SPIRIT_WORDS.length)) :
    sweepTick (stopSweep s) d e = none ∧
    (stopSweep s).pendingClears = s.pendingClears ∧
    (stopSweep s).word = s.word :=
  ⟨rfl, rfl, rfl⟩

/-- C6 (counterexample). Intensity is not monotone while qualifying
frames keep arriving: two consecutive qualifying frames (both poses have
6 valid keypoints) drive the EMF level from 4.5 down to 2.0 — a drop of
2.5, far more than the 0.1 decay step, because a qualifying frame
replaces the intensity with `min(5, mean*5 + jitter)` instead of taking
a maximum with the previous value. -/
theorem intensity_drop_between_qualifying_frames :
    5 < (validKeypoints (poseN 6 (9/10))).length ∧
    5 < (validKeypoints (poseN 6 (2/5))).length ∧
    (runFrames initState [demoHighFrame]).emfLevel = 9/2 ∧
    (runFrames initState [demoHighFrame, demoLowFrame]).emfLevel = 2 ∧
    (2 : ℚ) < 9/2 - 1/10 := by
  refine ⟨?_, ?_, ?_, ?_, by norm_num⟩ <;>
    norm_num [runFrames, detectPoses, processPose, initState, poseN,
      demoHighFrame, demoLowFrame, validKeypoints, avgScore,
      List.replicate, List.filter, List.foldl]

/-- C6 (amended). What does hold of the intensity signal: along any run
from the initial state with nonnegative jitter draws, the EMF level
stays within [0, 5] at every point of the trajectory (qualifying frames
clamp at 5, decay clamps at 0); monotonicity under qualifying frames
does not hold. -/
theorem intensity_bounded_zero_five (fs : List (List PoseObs))
    (hj : ∀ f ∈ fs, ∀ o ∈ f, 0 ≤ o.jitter) :
    ∀ x ∈ emfTrace initState fs, 0 ≤ x ∧ x ≤ 5 :=
  emfTrace_bounds fs hj (by norm_num [initState]) (by norm_num [initState])

/-- C6 (witness). The bounds evaluated at the concrete intensity value
4.5 reached after the one strong frame of the demo run. -/
theorem intensity_bounded_zero_five_witness :
    0 ≤ (9/2 : ℚ) ∧ (9/2 : ℚ) ≤ 5 :=
  intensity_bounded_zero_five [demoHighFrame]
    (by intro f hf o ho
        simp only [demoHighFrame, List.mem_singleton] at hf
        subst hf
        simp only [List.mem_singleton] at ho
        subst ho
        norm_num)
    (9/2)
    (by norm_num [emfTrace, detectPoses, processPose, initState,
          demoHighFrame, poseN, validKeypoints, avgScore, List.replicate,
          List.filter, List.foldl])

/-- C7 (counterexample). A frame that contains a pose with only 5 valid
keypoints is non-qualifying per the claim, yet the code does not decay:
from intensity 1.0, processing `demoFivePoseFrame` leaves the EMF level
at 1.0, not `max(0, 1.0 - 0.1) = 0.9` — decay runs only when the pose
list is empty (App.js lines 212-215). -/
theorem pose_frame_without_qualifying_does_not_decay :
    (validKeypoints (poseN 5 (1/2))).length = 5 ∧
    demoEmfOne.emfLevel = 1 ∧
    (detectPoses true 4 demoFivePoseFrame demoEmfOne).emfLevel = 1 ∧
    ¬ ((1 : ℚ) = max 0 ((1 : ℚ) - 1/10)) := by
  refine ⟨?_, rfl, ?_, by norm_num⟩ <;>
    norm_num [detectPoses, processPose, demoFivePoseFrame, demoEmfOne,
      initState, poseN, validKeypoints, avgScore, List.replicate,
      List.filter, List.foldl]

/-- C7 (amended). The decay law `new = max(0, previous - 0.1)` applies
exactly to frames whose pose list is empty; a non-empty frame none of
whose poses qualifies (all have 5 or fewer valid keypoints) leaves the
intensity unchanged. -/
theorem decay_exactly_on_empty_pose_list (s : AppState) (f : List PoseObs)
    (hne : f ≠ []) (hq : ∀ o ∈ f, ¬ 5 < (validKeypoints o.pose).length) :
    (detectPoses true 4 [] s).emfLevel = max 0 (s.emfLevel - 1/10) ∧
    (detectPoses true 4 f s).emfLevel = s.emfLevel :=
  ⟨detectPoses_empty_decay s, detectPoses_not_qual s f hne hq⟩

/-- C7 (witness). The two laws evaluated at the concrete intensity-1.0
state and the concrete five-keypoint frame. -/
theorem decay_exactly_on_empty_pose_list_witness :
    (detectPoses true 4 [] demoEmfOne).emfLevel =
      max 0 (demoEmfOne.emfLevel - 1/10) ∧
    (detectPoses true 4 demoFivePoseFrame demoEmfOne).emfLevel =
      demoEmfOne.emfLevel :=
  decay_exactly_on_empty_pose_list demoEmfOne demoFivePoseFrame
    (by norm_num [demoFivePoseFrame])
    (by intro o ho
        simp only [demoFivePoseFrame, List.mem_singleton] at ho
        subst ho
        norm_num [validKeypoints, poseN, List.replicate, List.filter])

/-- C8 (code_bug). The summary PUT on stop names its field
`max_emf_level` but carries the instantaneous `emfLevel` at the moment
of stopping, not the session maximum: in the concrete demo session the
intensity peaks at 4.5 and then decays to 4.4 before stop, and the
emitted summary carries 4.4 while the maximum attained over the session
is 4.5. -/
theorem summary_reports_final_emf_not_max :
    demoStopped.summaries = [{ total_detections := 1, max_emf_level := 22/5 }] ∧
    maxEmfOverRun demoStart [demoFrameA, []] = 9/2 ∧
    ¬ ((22/5 : ℚ) = 9/2) := by
  refine ⟨?_, ?_, by norm_num⟩ <;>
    norm_num [demoStopped, demoRun, demoStart, demoFrameA, toggleSession,
      runFrames, detectPoses, processPose, initState, poseN, validKeypoints,
      avgScore, maxEmfOverRun, emfTrace, List.replicate, List.filter,
      List.foldl]

/-- C10 (confirmed). Invoking `logDetection` with a non-empty pose list
whose first pose has zero keypoints scoring above 0.3 passes the
emptiness guard, divides by the zero valid-keypoint count (NaN in the
JS semantics, `none` in this embedding), and the resulting payload is
still sent to the persistence collaborator unguarded. -/
theorem logDetection_zero_valid_keypoints_nan :
    (validKeypoints demoWeakPose).length = 0 ∧
    logDetection [demoWeakPose] 0 false (881/10) =
      some { confidence := none, keypoints_count := 0,
             emf_level := 0, spirit_box_frequency := none } := by
  constructor <;>
    norm_num [logDetection, validKeypoints, demoWeakPose, jsDiv, List.filter]

end SpektorSkope
